import Mathlib

/-!
Verification of the `stdlib-js/net` package core: the port-hunting
bind/retry protocol of the HTTP server factory and the disposable
one-shot HTTP server's routing and shutdown logic.

The embedding below transcribes the JavaScript source:
* `errorListener`, `hunt` — the `server.on('error', ...)` retry loop of
  the factory's bind procedure (`httpServer` in the http-server factory):
  on an `EADDRINUSE` error the candidate port is incremented and, while
  it does not exceed `maxport`, `server.listen` is retried; any other
  outcome throws.  The completion callback `done`/`cb` is invoked only
  from `onListen`, with a `null` error slot.
* `requestListener`, `sendHTML`, `sendJavaScript`, `notFound`,
  `unavailable`, `onFinish` — the disposable server: routing on the
  request URL, deferral of payload responses to the next tick,
  registration of the close-on-finish handler, and the `isClosing` flag.
-/

namespace Net

/-- Outcome of one `server.listen` attempt, as reported by the platform:
`none` models the `listening` event; `some code` models an `error` event
carrying `error.code`. -/
def ListenEnv : Type := Nat → Option String

/-- Action taken by the server `error` event handler (`errorListener`):
either retry `server.listen` at a new candidate port, or throw the error
to the caller.  `throwErr` records the error code propagated unchanged
and the value of the factory-scoped `port` variable after the handler ran. -/
inductive ErrAction where
  | retryListen (port : Nat)
  | throwErr (code : String) (port : Nat)
  deriving DecidableEq, Repr

/-- Transcription of `errorListener` (http-server factory): on
`EADDRINUSE` the closure variable `port` is incremented first; if the new
port is still within `max` the listen call is retried, otherwise the error
is thrown; a non-`EADDRINUSE` error is thrown with `port` untouched. -/
def errorListener (max port : Nat) (code : String) : ErrAction :=
  if code = "EADDRINUSE" then
    if port + 1 ≤ max then ErrAction.retryListen (port + 1)
    else ErrAction.throwErr code (port + 1)
  else ErrAction.throwErr code port

/-- Terminal outcome of one invocation of the bind procedure. -/
inductive HuntOutcome where
  | bound (port : Nat)
  | raised (code : String)
  deriving DecidableEq, Repr

/-- Observable record of one invocation of the bind procedure:
the ports passed to `server.listen` in order, the terminal outcome, the
value of the factory-scoped `port` variable when the invocation ends, and
the error-slot arguments of every completion-callback invocation
(the source calls `done(null, server)` only inside `onListen`). -/
structure HuntRun where
  attempts : List Nat
  outcome : HuntOutcome
  closurePort : Nat
  callbacks : List (Option String)
  deriving DecidableEq, Repr

/-- The bind/retry loop of the factory's `httpServer`, with explicit fuel.
Each level performs one `server.listen(port, hostname)` attempt; an error
is dispatched through `errorListener`.  `hunt` instantiates the fuel at
`max + 1 - port`, which is an upper bound on the retries the source can
perform (the retry guard `port + 1 ≤ max` makes the distance to the
ceiling shrink by one per retry), so the zero-fuel branch under
`retryListen` is never reached from `hunt`; it conservatively mirrors the
throw branch. -/
def huntB (env : ListenEnv) (max : Nat) : Nat → Nat → HuntRun
  | port, fuel =>
    match env port with
    | none => ⟨[port], HuntOutcome.bound port, port, [none]⟩
    | some code =>
      match errorListener max port code with
      | ErrAction.retryListen port' =>
        match fuel with
        | fuel' + 1 =>
          let r := huntB env max port' fuel'
          ⟨port :: r.attempts, r.outcome, r.closurePort, r.callbacks⟩
        | 0 => ⟨[port], HuntOutcome.raised code, port', []⟩
      | ErrAction.throwErr c port' =>
        ⟨[port], HuntOutcome.raised c, port', []⟩

/-- One invocation of the bind procedure returned by the factory,
starting from the current value of the factory-scoped `port` variable. -/
def hunt (env : ListenEnv) (max port : Nat) : HuntRun :=
  huntB env max port (max + 1 - port)

/-- Two consecutive invocations of the same bind procedure.  The `port`
variable lives in the factory closure, so the second invocation starts
from the value the first invocation left behind. -/
def invokeTwice (env1 env2 : ListenEnv) (max p0 : Nat) : HuntRun × HuntRun :=
  let r1 := hunt env1 max p0
  (r1, hunt env2 max r1.closurePort)

/-! ### Disposable HTTP server (disposable-http-server) -/

/-- Transcription of `string2buffer` (`@stdlib/buffer/from-string`):
UTF-8 encode a JavaScript string into a byte buffer, modelled as the
list of byte values of the UTF-8 encoding. -/
def string2buffer (s : String) : List Nat :=
  (s.data.flatMap String.utf8EncodeChar).map (fun b => b.toNat)

/-- Transcription of `byteLength`: the byte length of an (already
encoded) payload buffer. -/
def byteLength (buf : List Nat) : Nat := buf.length

/-- Disposable-server configuration after the setup in `httpServer`
(disposable-http-server) normalized any string content with
`string2buffer`: the HTML payload buffer (a boilerplate page is loaded
when none is supplied) and the optional JavaScript payload buffer. -/
structure ServerCfg where
  html : List Nat
  javascript : Option (List Nat)
  deriving DecidableEq, Repr

/-- Which response routine `requestListener` selects for a request. -/
inductive RespKind where
  | html
  | javascript
  | notFound404
  | unavailable503
  deriving DecidableEq, Repr

/-- Whether the selected response routine runs synchronously inside the
request callback or is deferred via `nextTick`. -/
inductive Timing where
  | sync
  | nextTick
  deriving DecidableEq, Repr

/-- What `requestListener` does with one request: when the response runs,
which response it is, and whether `onFinish` is registered on the
response's `finish` event (arming the close-on-finish transition). -/
structure ReqAction where
  timing : Timing
  resp : RespKind
  armFinish : Bool
  deriving DecidableEq, Repr

/-- Transcription of `requestListener` (disposable-http-server): a 503 is
sent synchronously while `isClosing`; `/bundle.js` defers
`sendJavaScript` to the next tick and always registers `onFinish`; any
URL other than `/` and `/index.html` gets a synchronous 404; `/` and
`/index.html` defer `sendHTML` to the next tick and register `onFinish`
only when no JavaScript content is configured. -/
def requestListener (cfg : ServerCfg) (isClosing : Bool) (url : String) :
    ReqAction :=
  if isClosing then
    ⟨Timing.sync, RespKind.unavailable503, false⟩
  else if url = "/bundle.js" then
    ⟨Timing.nextTick, RespKind.javascript, true⟩
  else if url ≠ "/" ∧ url ≠ "/index.html" then
    ⟨Timing.sync, RespKind.notFound404, false⟩
  else
    ⟨Timing.nextTick, RespKind.html, cfg.javascript.isNone⟩

/-- An HTTP response as the disposable server emits it: status code, the
Content-Type and Content-Length headers set (if any), and the body bytes. -/
structure HttpResponse where
  status : Nat
  contentType : Option String
  contentLength : Option Nat
  body : List Nat
  deriving DecidableEq, Repr

/-- Transcription of `sendHTML`: 200, `text/html`, Content-Length from
`byteLength` of the HTML buffer, body the HTML buffer. -/
def sendHTML (cfg : ServerCfg) : HttpResponse :=
  ⟨200, some "text/html", some (byteLength cfg.html), cfg.html⟩

/-- Transcription of `sendJavaScript` on a configured payload: 200,
`text/javascript`, Content-Length from `byteLength` of the JavaScript
buffer, body the JavaScript buffer. -/
def sendJavaScript (js : List Nat) : HttpResponse :=
  ⟨200, some "text/javascript", some (byteLength js), js⟩

/-- Transcription of `notFound`: 404, no headers set, empty body. -/
def notFoundResp : HttpResponse := ⟨404, none, none, []⟩

/-- Transcription of `unavailable`: 503, no headers set, empty body. -/
def unavailableResp : HttpResponse := ⟨503, none, none, []⟩

/-- The response a selected routine produces.  `sendJavaScript` reads
`opts.javascript`; with no JavaScript configured the emitted response is
left unspecified (`none`) since the source then operates on an undefined
payload. -/
def render (cfg : ServerCfg) : RespKind → Option HttpResponse
  | RespKind.html => some (sendHTML cfg)
  | RespKind.javascript => cfg.javascript.map sendJavaScript
  | RespKind.notFound404 => some notFoundResp
  | RespKind.unavailable503 => some unavailableResp

/-- Event-loop state of one disposable-server instance: the `isClosing`
flag, the ids of in-flight responses with `onFinish` registered (via
`response.once('finish', onFinish)`), how many times the `onFinish` body
has run (each run sets `isClosing`, calls `server.close()`, and schedules
the deferred force-destroy of tracked connections), and the responses
selected so far. -/
structure DispState where
  isClosing : Bool
  armed : List Nat
  finishCount : Nat
  sent : List (Nat × RespKind)
  deriving DecidableEq, Repr

/-- Events driving a disposable server: an inbound request (with a fresh
response id) or the `finish` event of a response stream. -/
inductive DispEvent where
  | request (id : Nat) (url : String)
  | finish (id : Nat)
  deriving DecidableEq, Repr

/-- One event-loop step of the disposable server.  A request runs
`requestListener`; a `finish` event runs `onFinish` iff that response had
it registered (`once` semantics: the registration is consumed). -/
def dispStep (cfg : ServerCfg) (s : DispState) : DispEvent → DispState
  | DispEvent.request id url =>
    let a := requestListener cfg s.isClosing url
    { s with
      armed := if a.armFinish then s.armed ++ [id] else s.armed
      sent := s.sent ++ [(id, a.resp)] }
  | DispEvent.finish id =>
    if id ∈ s.armed then
      { s with
        isClosing := true
        finishCount := s.finishCount + 1
        armed := s.armed.erase id }
    else s

/-- The fresh state of a disposable server: serving, nothing armed. -/
def dispInit : DispState := ⟨false, [], 0, []⟩

/-- Run a disposable server over a sequence of event-loop events. -/
def dispRun (cfg : ServerCfg) (events : List DispEvent) : DispState :=
  events.foldl (dispStep cfg) dispInit

/-! ### Concrete instances used by witnesses and counterexamples -/

/-- Whether a terminal outcome is a successful bind. -/
def HuntOutcome.isBound : HuntOutcome → Bool
  | HuntOutcome.bound _ => true
  | HuntOutcome.raised _ => false

/-- A listen environment in which every port below 8082 is occupied and
port 8082 is free. -/
def envOccW : ListenEnv := fun q => if q < 8082 then some "EADDRINUSE" else none

/-- A listen environment in which every port is free. -/
def envFreeW : ListenEnv := fun _ => none

/-- The concrete configuration of the spec's example disposable server:
HTML `<h1>Beep</h1>`, no JavaScript content. -/
def cfgBeep : ServerCfg := ⟨string2buffer "<h1>Beep</h1>", none⟩

/-- A configuration with both HTML and JavaScript content. -/
def cfgWithJs : ServerCfg :=
  ⟨string2buffer "<h1>Beep</h1>", some (string2buffer "console.log(1);")⟩

end Net

/-! ### Properties of the error listener and the bind/retry loop -/

namespace Net

theorem huntB_bound (env : ListenEnv) (max port fuel : Nat)
    (h : env port = none) :
    huntB env max port fuel = ⟨[port], HuntOutcome.bound port, port, [none]⟩ := by
  rw [huntB, h]

theorem huntB_retry (env : ListenEnv) (max port fuel : Nat) (code : String)
    (p' : Nat) (h : env port = some code)
    (ha : errorListener max port code = ErrAction.retryListen p') :
    huntB env max port (fuel + 1) =
      ⟨port :: (huntB env max p' fuel).attempts, (huntB env max p' fuel).outcome,
        (huntB env max p' fuel).closurePort, (huntB env max p' fuel).callbacks⟩ := by
  rw [huntB, h]
  simp only [ha]

theorem huntB_retry_fuelless (env : ListenEnv) (max port : Nat) (code : String)
    (p' : Nat) (h : env port = some code)
    (ha : errorListener max port code = ErrAction.retryListen p') :
    huntB env max port 0 = ⟨[port], HuntOutcome.raised code, p', []⟩ := by
  rw [huntB, h]
  simp only [ha]

theorem huntB_throw (env : ListenEnv) (max port fuel : Nat) (code c : String)
    (p' : Nat) (h : env port = some code)
    (ha : errorListener max port code = ErrAction.throwErr c p') :
    huntB env max port fuel = ⟨[port], HuntOutcome.raised c, p', []⟩ := by
  rw [huntB, h]
  simp only [ha]

theorem errorListener_inuse_retry (max port : Nat) (h : port + 1 ≤ max) :
    errorListener max port "EADDRINUSE" = ErrAction.retryListen (port + 1) := by
  unfold errorListener
  rw [if_pos rfl, if_pos h]

theorem errorListener_inuse_throw (max port : Nat) (h : max < port + 1) :
    errorListener max port "EADDRINUSE" =
      ErrAction.throwErr "EADDRINUSE" (port + 1) := by
  unfold errorListener
  rw [if_pos rfl, if_neg (by omega)]

theorem errorListener_other_throw (max port : Nat) (code : String)
    (h : code ≠ "EADDRINUSE") :
    errorListener max port code = ErrAction.throwErr code port := by
  unfold errorListener
  rw [if_neg h]

theorem errorListener_retry_inv (max port : Nat) (code : String) (p' : Nat)
    (h : errorListener max port code = ErrAction.retryListen p') :
    code = "EADDRINUSE" ∧ port + 1 ≤ max ∧ p' = port + 1 := by
  unfold errorListener at h
  by_cases hc : code = "EADDRINUSE"
  · subst hc
    rw [if_pos rfl] at h
    by_cases hp : port + 1 ≤ max
    · rw [if_pos hp] at h
      injection h with h1
      exact ⟨rfl, hp, h1.symm⟩
    · rw [if_neg hp] at h
      cases h
  · rw [if_neg hc] at h
    cases h

theorem errorListener_throw_inv (max port : Nat) (code c : String) (p' : Nat)
    (h : errorListener max port code = ErrAction.throwErr c p') :
    c = code ∧ ((code = "EADDRINUSE" ∧ max < port + 1 ∧ p' = port + 1) ∨
      (code ≠ "EADDRINUSE" ∧ p' = port)) := by
  unfold errorListener at h
  by_cases hc : code = "EADDRINUSE"
  · subst hc
    rw [if_pos rfl] at h
    by_cases hp : port + 1 ≤ max
    · rw [if_pos hp] at h
      cases h
    · rw [if_neg hp] at h
      injection h with h1 h2
      exact ⟨h1.symm, Or.inl ⟨rfl, by omega, h2.symm⟩⟩
  · rw [if_neg hc] at h
    injection h with h1 h2
    exact ⟨h1.symm, Or.inr ⟨hc, h2.symm⟩⟩

theorem huntB_headAttempt (env : ListenEnv) (max port fuel : Nat) :
    (huntB env max port fuel).attempts.head? = some port := by
  cases h : env port with
  | none =>
    rw [huntB_bound env max port fuel h]
    rfl
  | some code =>
    cases ha : errorListener max port code with
    | retryListen p' =>
      cases fuel with
      | zero =>
        rw [huntB_retry_fuelless env max port code p' h ha]
        rfl
      | succ f =>
        rw [huntB_retry env max port f code p' h ha]
        rfl
    | throwErr c p' =>
      rw [huntB_throw env max port fuel code c p' h ha]
      rfl

theorem huntB_le_closurePort (env : ListenEnv) (max : Nat) :
    ∀ fuel port, port ≤ (huntB env max port fuel).closurePort := by
  intro fuel
  induction fuel with
  | zero =>
    intro port
    cases h : env port with
    | none => rw [huntB_bound env max port 0 h]
    | some code =>
      cases ha : errorListener max port code with
      | retryListen p' =>
        rw [huntB_retry_fuelless env max port code p' h ha]
        show port ≤ p'
        have := errorListener_retry_inv max port code p' ha
        omega
      | throwErr c p' =>
        rw [huntB_throw env max port 0 code c p' h ha]
        show port ≤ p'
        have := errorListener_throw_inv max port code c p' ha
        rcases this.2 with h2 | h2 <;> omega
  | succ f ih =>
    intro port
    cases h : env port with
    | none => rw [huntB_bound env max port (f + 1) h]
    | some code =>
      cases ha : errorListener max port code with
      | retryListen p' =>
        rw [huntB_retry env max port f code p' h ha]
        show port ≤ (huntB env max p' f).closurePort
        have h1 := errorListener_retry_inv max port code p' ha
        have h2 := ih p'
        omega
      | throwErr c p' =>
        rw [huntB_throw env max port (f + 1) code c p' h ha]
        show port ≤ p'
        have := errorListener_throw_inv max port code c p' ha
        rcases this.2 with h2 | h2 <;> omega

theorem huntB_inuse_closurePort (env : ListenEnv) (max fuel port : Nat)
    (h : env port = some "EADDRINUSE") :
    port + 1 ≤ (huntB env max port fuel).closurePort := by
  cases ha : errorListener max port "EADDRINUSE" with
  | retryListen p' =>
    have hi := errorListener_retry_inv max port "EADDRINUSE" p' ha
    cases fuel with
    | zero =>
      rw [huntB_retry_fuelless env max port "EADDRINUSE" p' h ha]
      show port + 1 ≤ p'
      omega
    | succ f =>
      rw [huntB_retry env max port f "EADDRINUSE" p' h ha]
      show port + 1 ≤ (huntB env max p' f).closurePort
      have := huntB_le_closurePort env max f p'
      omega
  | throwErr c p' =>
    have hi := errorListener_throw_inv max port "EADDRINUSE" c p' ha
    rw [huntB_throw env max port fuel "EADDRINUSE" c p' h ha]
    show port + 1 ≤ p'
    rcases hi.2 with h2 | h2
    · omega
    · exact absurd rfl h2.1

theorem huntB_occupied (env : ListenEnv) (M : Nat) :
    ∀ fuel P, fuel = M + 1 - P → P ≤ M →
      (∀ q, P ≤ q → q < M → env q = some "EADDRINUSE") → env M = none →
      huntB env M P fuel =
        ⟨List.range' P (M - P + 1), HuntOutcome.bound M, M, [none]⟩ := by
  intro fuel
  induction fuel with
  | zero =>
    intro P hf hPM _ _
    omega
  | succ f ih =>
    intro P hf hPM hocc hfree
    by_cases hPeq : P = M
    · subst hPeq
      rw [huntB_bound env P P (f + 1) hfree]
      simp [List.range']
    · have hlt : P < M := lt_of_le_of_ne hPM hPeq
      have h0 : env P = some "EADDRINUSE" := hocc P le_rfl hlt
      have ha := errorListener_inuse_retry M P (by omega)
      rw [huntB_retry env M P f "EADDRINUSE" (P + 1) h0 ha]
      rw [ih (P + 1) (by omega) (by omega)
        (fun q h1 h2 => hocc q (by omega) h2) hfree]
      have hn : M - P + 1 = (M - (P + 1) + 1) + 1 := by omega
      rw [hn, List.range'_succ]
      rfl

theorem hunt_ceiling (env : ListenEnv) (M P : Nat) (h : M < P) :
    (hunt env M P).attempts = [P] ∧
      (env P = some "EADDRINUSE" →
        (hunt env M P).outcome = HuntOutcome.raised "EADDRINUSE") := by
  have hfuel : M + 1 - P = 0 := by omega
  unfold hunt
  rw [hfuel]
  cases he : env P with
  | none =>
    rw [huntB_bound env M P 0 he]
    refine ⟨rfl, fun hx => ?_⟩
    cases hx
  | some code =>
    by_cases hc : code = "EADDRINUSE"
    · subst hc
      have ha := errorListener_inuse_throw M P (by omega)
      rw [huntB_throw env M P 0 "EADDRINUSE" "EADDRINUSE" (P + 1) he ha]
      exact ⟨rfl, fun _ => rfl⟩
    · have ha := errorListener_other_throw M P code hc
      rw [huntB_throw env M P 0 code code P he ha]
      refine ⟨rfl, fun hx => ?_⟩
      injection hx with h1
      exact absurd h1 hc

theorem huntB_callbacks (env : ListenEnv) (max : Nat) :
    ∀ fuel port,
      (huntB env max port fuel).callbacks =
        if (huntB env max port fuel).outcome.isBound then [none] else [] := by
  intro fuel
  induction fuel with
  | zero =>
    intro port
    cases h : env port with
    | none => rw [huntB_bound env max port 0 h]; rfl
    | some code =>
      cases ha : errorListener max port code with
      | retryListen p' => rw [huntB_retry_fuelless env max port code p' h ha]; rfl
      | throwErr c p' => rw [huntB_throw env max port 0 code c p' h ha]; rfl
  | succ f ih =>
    intro port
    cases h : env port with
    | none => rw [huntB_bound env max port (f + 1) h]; rfl
    | some code =>
      cases ha : errorListener max port code with
      | retryListen p' =>
        rw [huntB_retry env max port f code p' h ha]
        exact ih p'
      | throwErr c p' => rw [huntB_throw env max port (f + 1) code c p' h ha]; rfl

end Net

/-! ### Properties of the disposable server -/

namespace Net

theorem requestListener_closing (cfg : ServerCfg) (url : String) :
    requestListener cfg true url =
      ⟨Timing.sync, RespKind.unavailable503, false⟩ := by
  unfold requestListener
  rw [if_pos rfl]

theorem requestListener_serving (cfg : ServerCfg) (url : String) :
    requestListener cfg false url =
      if url = "/bundle.js" then ⟨Timing.nextTick, RespKind.javascript, true⟩
      else if url = "/" ∨ url = "/index.html" then
        ⟨Timing.nextTick, RespKind.html, cfg.javascript.isNone⟩
      else ⟨Timing.sync, RespKind.notFound404, false⟩ := by
  unfold requestListener
  rw [if_neg (by simp)]
  by_cases hb : url = "/bundle.js"
  · rw [if_pos hb, if_pos hb]
  · rw [if_neg hb, if_neg hb]
    by_cases ho : url = "/" ∨ url = "/index.html"
    · rw [if_neg (fun hcon => ho.elim hcon.1 hcon.2), if_pos ho]
    · rw [if_pos ⟨fun h => ho (Or.inl h), fun h => ho (Or.inr h)⟩, if_neg ho]

theorem string2buffer_length (s : String) :
    byteLength (string2buffer s) = s.utf8ByteSize := by
  unfold byteLength string2buffer
  rw [List.length_map]
  cases s with
  | mk data =>
    induction data with
    | nil => rfl
    | cons c cs ih =>
      rw [List.flatMap_cons, List.length_append, String.length_utf8EncodeChar]
      have h2 : ({ data := c :: cs } : String).utf8ByteSize =
        String.utf8ByteSize.go cs + c.utf8Size := rfl
      have h3 : ({ data := cs } : String).utf8ByteSize =
        String.utf8ByteSize.go cs := rfl
      rw [h2, ih, h3]
      omega

end Net

/-! ### The claims -/

namespace Net

/-- Claim C1: for every configured port `P` and maxport `M` with `M ≥ P`,
if ports `P..M-1` are occupied (each listen attempt fails with
address-in-use) and `M` is free, the bind procedure binds to exactly port
`M`, making exactly `M - P + 1` bind attempts on the consecutive ports
`P, P+1, ..., M` in strictly ascending order; and for every `M < P`,
exactly one bind attempt is made at `P`, and an address-in-use conflict
at `P` raises the error immediately with no retry. -/
theorem portHunting_binds_first_free (env : ListenEnv) (P M : Nat) :
    (P ≤ M → (∀ q, P ≤ q → q < M → env q = some "EADDRINUSE") → env M = none →
      hunt env M P =
        ⟨List.range' P (M - P + 1), HuntOutcome.bound M, M, [none]⟩) ∧
    (M < P → (hunt env M P).attempts = [P] ∧
      (env P = some "EADDRINUSE" →
        (hunt env M P).outcome = HuntOutcome.raised "EADDRINUSE")) := by
  constructor
  · intro h1 h2 h3
    unfold hunt
    exact huntB_occupied env M (M + 1 - P) P rfl h1 h2 h3
  · intro h
    exact hunt_ceiling env M P h

theorem portHunting_binds_first_free_witness :
    (hunt envOccW 8082 8080 =
      ⟨List.range' 8080 3, HuntOutcome.bound 8082, 8082, [none]⟩) ∧
    ((hunt envOccW 8079 8081).attempts = [8081] ∧
      (hunt envOccW 8079 8081).outcome = HuntOutcome.raised "EADDRINUSE") := by
  constructor
  · exact (portHunting_binds_first_free envOccW 8080 8082).1
      (by omega)
      (fun q h1 h2 => by unfold envOccW; rw [if_pos (by omega)])
      (by unfold envOccW; rw [if_neg (by omega)])
  · have h := (portHunting_binds_first_free envOccW 8081 8079).2 (by omega)
    exact ⟨h.1, h.2 (by unfold envOccW; rw [if_pos (by omega)])⟩

/-- Claim C2: the retry transition from candidate port `p` to `p + 1`
occurs if and only if the bind error signals address-already-in-use and
`p < maxport`; every other error outcome is thrown to the caller with its
code propagated unchanged, and on any raised outcome the completion
callback is never invoked (so no error ever reaches the callback's error
slot). -/
theorem retry_iff_inuse_below_max (max port : Nat) (code : String)
    (env : ListenEnv) (p0 : Nat) :
    ((errorListener max port code = ErrAction.retryListen (port + 1)) ↔
      (code = "EADDRINUSE" ∧ port < max)) ∧
    (¬(code = "EADDRINUSE" ∧ port < max) →
      ∃ p', errorListener max port code = ErrAction.throwErr code p') ∧
    (∀ c, (hunt env max p0).outcome = HuntOutcome.raised c →
      (hunt env max p0).callbacks = []) := by
  refine ⟨⟨?_, ?_⟩, ?_, ?_⟩
  · intro h
    have := errorListener_retry_inv max port code (port + 1) h
    exact ⟨this.1, by omega⟩
  · intro ⟨h1, h2⟩
    subst h1
    exact errorListener_inuse_retry max port (by omega)
  · intro hn
    by_cases hc : code = "EADDRINUSE"
    · subst hc
      have hge : ¬ port < max := fun hlt => hn ⟨rfl, hlt⟩
      exact ⟨port + 1, errorListener_inuse_throw max port (by omega)⟩
    · exact ⟨port, errorListener_other_throw max port code hc⟩
  · intro c hc
    have h := huntB_callbacks env max (max + 1 - p0) p0
    unfold hunt at hc ⊢
    rw [h, hc]
    rfl

theorem retry_iff_inuse_below_max_witness :
    (∃ p', errorListener 9 5 "EACCES" = ErrAction.throwErr "EACCES" p') ∧
    (hunt envOccW 8079 8081).callbacks = [] := by
  constructor
  · exact (retry_iff_inuse_below_max 9 5 "EACCES" envFreeW 0).2.1 (by simp)
  · exact (retry_iff_inuse_below_max 8079 5 "EACCES" envOccW 8081).2.2
      "EADDRINUSE" (by rfl)

/-- Claim C5: per invocation of the bind procedure the completion callback
is invoked at most once, exactly once with a `null` error slot when the
outcome is a successful bind, and never when the outcome is a raised
error (the ceiling-exceeded path raises instead of calling back). -/
theorem completion_callback_once (env : ListenEnv) (max port : Nat) :
    ((hunt env max port).callbacks.length ≤ 1) ∧
    (∀ p, (hunt env max port).outcome = HuntOutcome.bound p →
      (hunt env max port).callbacks = [none]) ∧
    (∀ c, (hunt env max port).outcome = HuntOutcome.raised c →
      (hunt env max port).callbacks = []) := by
  have h := huntB_callbacks env max (max + 1 - port) port
  unfold hunt
  refine ⟨?_, ?_, ?_⟩
  · rw [h]
    split <;> simp
  · intro p hp
    rw [h, hp]
    rfl
  · intro c hc
    rw [h, hc]
    rfl

theorem completion_callback_once_witness :
    (hunt envFreeW 5 5).callbacks = [none] ∧
    (hunt envOccW 8078 8081).callbacks = [] :=
  ⟨(completion_callback_once envFreeW 5 5).2.1 5 rfl,
    (completion_callback_once envOccW 8078 8081).2.2 "EADDRINUSE" rfl⟩

/-- Claim C10: the candidate port is factory-closure state, not
per-invocation state: a second invocation of the same bind procedure
starts its first bind attempt at the port value the first invocation's
hunting reached, the closure port never moves below the starting port,
and an address-in-use error at the starting port permanently increments
it past the originally configured port. -/
theorem factory_port_state_persists (env1 env2 : ListenEnv) (max p0 : Nat) :
    ((invokeTwice env1 env2 max p0).2.attempts.head? =
      some (invokeTwice env1 env2 max p0).1.closurePort) ∧
    (p0 ≤ (invokeTwice env1 env2 max p0).1.closurePort) ∧
    (env1 p0 = some "EADDRINUSE" →
      p0 + 1 ≤ (invokeTwice env1 env2 max p0).1.closurePort) := by
  unfold invokeTwice hunt
  refine ⟨?_, ?_, ?_⟩
  · exact huntB_headAttempt env2 max _ _
  · exact huntB_le_closurePort env1 max _ p0
  · intro h
    exact huntB_inuse_closurePort env1 max _ p0 h

theorem factory_port_state_persists_witness :
    8080 + 1 ≤ (invokeTwice envOccW envOccW 8082 8080).1.closurePort :=
  (factory_port_state_persists envOccW envOccW 8082 8080).2.2
    (by unfold envOccW; rw [if_pos (by omega)])

end Net

namespace Net

/-- Claim C3: which response arms the Serving-to-Finishing transition is
determined by the configuration: with JavaScript content configured, the
HTML response (for `/` or `/index.html`) never registers the finish
handler and exactly the `/bundle.js` response does; with no JavaScript
content configured, the HTML response registers it. -/
theorem finishing_armed_by_config (cfg : ServerCfg) (url : String) :
    (cfg.javascript.isSome = true →
      ((requestListener cfg false url).armFinish = true ↔ url = "/bundle.js")) ∧
    (cfg.javascript = none → (url = "/" ∨ url = "/index.html") →
      (requestListener cfg false url).armFinish = true) := by
  rw [requestListener_serving]
  constructor
  · intro hjs
    by_cases hb : url = "/bundle.js"
    · rw [if_pos hb]
      simp [hb]
    · rw [if_neg hb]
      by_cases ho : url = "/" ∨ url = "/index.html"
      · rw [if_pos ho]
        show cfg.javascript.isNone = true ↔ url = "/bundle.js"
        constructor
        · intro hn
          rw [Option.isNone_iff_eq_none] at hn
          rw [hn] at hjs
          cases hjs
        · intro h
          exact absurd h hb
      · rw [if_neg ho]
        simp [hb]
  · intro hjs ho
    by_cases hb : url = "/bundle.js"
    · rw [if_pos hb]
    · rw [if_neg hb, if_pos ho]
      show cfg.javascript.isNone = true
      rw [hjs]
      rfl

theorem finishing_armed_by_config_witness :
    ((requestListener cfgWithJs false "/").armFinish = true ↔
      ("/" : String) = "/bundle.js") ∧
    (requestListener cfgBeep false "/").armFinish = true :=
  ⟨(finishing_armed_by_config cfgWithJs "/").1 rfl,
    (finishing_armed_by_config cfgBeep "/").2 rfl (Or.inl rfl)⟩

/-- Claim C9: a `/bundle.js` request on a serving disposable server always
registers the finish-triggered shutdown handler and defers the
JavaScript-sending routine to the next tick, regardless of whether
JavaScript content is configured; with no JavaScript configured the
request does not get a 404 and the response routine operates on the
absent payload. -/
theorem bundle_request_always_armed (cfg : ServerCfg) :
    (requestListener cfg false "/bundle.js" =
      ⟨Timing.nextTick, RespKind.javascript, true⟩) ∧
    (cfg.javascript = none →
      (requestListener cfg false "/bundle.js").resp ≠ RespKind.notFound404 ∧
      render cfg (requestListener cfg false "/bundle.js").resp = none) := by
  have h : requestListener cfg false "/bundle.js" =
      ⟨Timing.nextTick, RespKind.javascript, true⟩ := by
    rw [requestListener_serving, if_pos rfl]
  refine ⟨h, fun hjs => ⟨?_, ?_⟩⟩
  · rw [h]
    simp
  · rw [h]
    show cfg.javascript.map sendJavaScript = none
    rw [hjs]
    rfl

theorem bundle_request_always_armed_witness :
    (requestListener cfgBeep false "/bundle.js").resp ≠ RespKind.notFound404 ∧
    render cfgBeep (requestListener cfgBeep false "/bundle.js").resp = none :=
  (bundle_request_always_armed cfgBeep).2 rfl

/-- Claim C6: on a serving disposable server the response is determined by
the request path: `/` or `/index.html` yields 200 with the HTML payload,
`text/html`, and a computed Content-Length; `/bundle.js` (with JavaScript
configured) yields 200 with the JavaScript payload and `text/javascript`;
every other path yields 404 with an empty body. -/
theorem serving_routes (cfg : ServerCfg) (url : String) (js : List Nat) :
    ((url = "/" ∨ url = "/index.html") →
      render cfg (requestListener cfg false url).resp =
        some ⟨200, some "text/html", some (byteLength cfg.html), cfg.html⟩) ∧
    (url = "/bundle.js" → cfg.javascript = some js →
      render cfg (requestListener cfg false url).resp =
        some ⟨200, some "text/javascript", some (byteLength js), js⟩) ∧
    (url ≠ "/" → url ≠ "/index.html" → url ≠ "/bundle.js" →
      render cfg (requestListener cfg false url).resp =
        some ⟨404, none, none, []⟩) := by
  rw [requestListener_serving]
  refine ⟨?_, ?_, ?_⟩
  · intro ho
    have hb : url ≠ "/bundle.js" := by
      rcases ho with h | h <;> subst h <;> decide
    rw [if_neg hb, if_pos ho]
    rfl
  · intro hb hjs
    rw [if_pos hb]
    show cfg.javascript.map sendJavaScript = _
    rw [hjs]
    rfl
  · intro h1 h2 hb
    rw [if_neg hb, if_neg (fun hcon => hcon.elim h1 h2)]
    rfl

theorem serving_routes_witness :
    (render cfgBeep (requestListener cfgBeep false "/").resp =
      some ⟨200, some "text/html", some (byteLength cfgBeep.html),
        cfgBeep.html⟩) ∧
    (render cfgWithJs (requestListener cfgWithJs false "/bundle.js").resp =
      some ⟨200, some "text/javascript",
        some (byteLength (string2buffer "console.log(1);")),
        string2buffer "console.log(1);"⟩) ∧
    (render cfgBeep (requestListener cfgBeep false "/nope").resp =
      some ⟨404, none, none, []⟩) :=
  ⟨(serving_routes cfgBeep "/" []).1 (Or.inl rfl),
    (serving_routes cfgWithJs "/bundle.js" (string2buffer "console.log(1);")).2.1
      rfl rfl,
    (serving_routes cfgBeep "/nope" []).2.2 (by decide) (by decide) (by decide)⟩

/-- Claim C7 counterexample: not every response is deferred to the next
tick — a 404 response (URL `/other` while serving) and a 503 response
(any URL while closing) are emitted synchronously in the same turn as the
request callback. -/
theorem sync_responses_counterexample :
    (requestListener cfgBeep false "/other").timing = Timing.sync ∧
    (requestListener cfgBeep true "/").timing = Timing.sync :=
  ⟨rfl, rfl⟩

/-- Claim C7 (amended): the payload responses — HTML and JavaScript — are
deferred to the next scheduler tick, while the 404 and 503 responses are
emitted synchronously within the request-received callback. -/
theorem payload_responses_deferred (cfg : ServerCfg) (closing : Bool)
    (url : String) :
    ((requestListener cfg closing url).timing = Timing.nextTick ↔
      ((requestListener cfg closing url).resp = RespKind.html ∨
        (requestListener cfg closing url).resp = RespKind.javascript)) ∧
    ((requestListener cfg closing url).timing = Timing.sync ↔
      ((requestListener cfg closing url).resp = RespKind.notFound404 ∨
        (requestListener cfg closing url).resp = RespKind.unavailable503)) := by
  cases closing with
  | true =>
    rw [requestListener_closing]
    constructor <;> simp
  | false =>
    rw [requestListener_serving]
    by_cases hb : url = "/bundle.js"
    · rw [if_pos hb]
      constructor <;> simp
    · rw [if_neg hb]
      by_cases ho : url = "/" ∨ url = "/index.html"
      · rw [if_pos ho]
        constructor <;> simp
      · rw [if_neg ho]
        constructor <;> simp

/-- Claim C8: the Content-Length header of a served payload equals the
byte length of the encoded payload buffer (the UTF-8 byte size of string
content), not its character count; on the multi-byte string `héllo` the
byte length is 6 while the character count is 5. -/
theorem content_length_is_byte_length (s t : String) :
    (sendHTML ⟨string2buffer s, none⟩).contentLength = some s.utf8ByteSize ∧
    (sendJavaScript (string2buffer t)).contentLength = some t.utf8ByteSize ∧
    (byteLength (string2buffer "héllo") = 6 ∧ ("héllo" : String).length = 5) := by
  refine ⟨?_, ?_, by decide, rfl⟩
  · show some (byteLength (string2buffer s)) = some s.utf8ByteSize
    rw [string2buffer_length]
  · show some (byteLength (string2buffer t)) = some t.utf8ByteSize
    rw [string2buffer_length]

/-- Claim C4 counterexample: the Serving-to-Finishing transition is NOT
limited to once per server lifetime — with no JavaScript configured, two
`/` requests in flight both register the finish handler before either
response completes, and the `onFinish` body runs twice. -/
theorem finishing_twice_counterexample :
    (dispRun cfgBeep
      [DispEvent.request 1 "/", DispEvent.request 2 "/",
        DispEvent.finish 1, DispEvent.finish 2]).finishCount = 2 ∧
    ¬ (dispRun cfgBeep
      [DispEvent.request 1 "/", DispEvent.request 2 "/",
        DispEvent.finish 1, DispEvent.finish 2]).finishCount ≤ 1 :=
  ⟨rfl, by decide⟩

/-- Claim C4 (amended): the Finishing transition body runs at most once
per armed response rather than once per server lifetime: a request
arriving while the server is closing receives a 503 with nothing armed,
the closing flag is never cleared once set, a finish event of an unarmed
response is a no-op, and a response's once-registered finish handler
cannot fire a second time. -/
theorem finishing_per_armed_response (cfg : ServerCfg) (s : DispState)
    (id : Nat) (url : String) (e : DispEvent) :
    (s.isClosing = true →
      dispStep cfg s (DispEvent.request id url) =
        { s with sent := s.sent ++ [(id, RespKind.unavailable503)] }) ∧
    (s.isClosing = true → (dispStep cfg s e).isClosing = true) ∧
    (id ∉ s.armed → dispStep cfg s (DispEvent.finish id) = s) ∧
    (s.armed.Nodup → id ∉ (dispStep cfg s (DispEvent.finish id)).armed) := by
  refine ⟨?_, ?_, ?_, ?_⟩
  · intro h
    simp only [dispStep]
    rw [h, requestListener_closing]
    rfl
  · intro h
    cases e with
    | request i u =>
      simp only [dispStep]
      exact h
    | finish i =>
      simp only [dispStep]
      split
      · rfl
      · exact h
  · intro h
    simp only [dispStep]
    rw [if_neg h]
  · intro hnd
    simp only [dispStep]
    by_cases hm : id ∈ s.armed
    · rw [if_pos hm]
      exact List.Nodup.not_mem_erase hnd
    · rw [if_neg hm]
      exact hm

theorem finishing_per_armed_response_witness :
    (dispStep cfgBeep ⟨true, [], 1, []⟩ (DispEvent.request 7 "/") =
      ⟨true, [], 1, [(7, RespKind.unavailable503)]⟩) ∧
    ((dispStep cfgBeep ⟨true, [], 1, []⟩ (DispEvent.finish 3)).isClosing
      = true) ∧
    (dispStep cfgBeep ⟨false, [5], 0, []⟩ (DispEvent.finish 9) =
      ⟨false, [5], 0, []⟩) ∧
    (5 ∉ (dispStep cfgBeep ⟨false, [5], 0, []⟩ (DispEvent.finish 5)).armed) :=
  ⟨(finishing_per_armed_response cfgBeep ⟨true, [], 1, []⟩ 7 "/"
      (DispEvent.request 7 "/")).1 rfl,
    (finishing_per_armed_response cfgBeep ⟨true, [], 1, []⟩ 7 "/"
      (DispEvent.finish 3)).2.1 rfl,
    (finishing_per_armed_response cfgBeep ⟨false, [5], 0, []⟩ 9 "/"
      (DispEvent.finish 9)).2.2.1 (by decide),
    (finishing_per_armed_response cfgBeep ⟨false, [5], 0, []⟩ 5 "/"
      (DispEvent.finish 5)).2.2.2 (by decide)⟩

end Net
